import Mathlib

/-!
Verification of the CLI-Pom pomodoro timer (src/pomodoro.py) against its
natural-language specification.

The Python program is shallowly embedded below.  Wall-clock time is modelled
exactly: the tick loop of run_timer is idealized as one iteration per second
with zero processing overhead (time.sleep(1) advances the clock by exactly one
second and everything else is instantaneous), so clock readings at loop
checkpoints are the integers 1, 2, 3, ....  Python float arithmetic on clock
values is modelled as exact rational arithmetic, and Python's int()
conversion as truncation toward zero.  Side effects (notifications, sound
playback, prints) are recorded as events in a trace; SIGINT delivery is
modelled by the instant at which the signal arrives.
-/

set_option maxHeartbeats 1000000

namespace Pomodoro

/-- The three session kinds; the source identifies them by the strings
"Work", "Short Break" and "Long Break". -/
inductive SessionType
  | work
  | shortBreak
  | longBreak
deriving DecidableEq

/-- The string label used for a session throughout pomodoro.py. -/
def session_label : SessionType → String
  | .work => "Work"
  | .shortBreak => "Short Break"
  | .longBreak => "Long Break"

/-- Sound slot name passed to play_sound at session start (lines 195-200). -/
def start_slot : SessionType → String
  | .work => "work_start"
  | .shortBreak => "short_break_start"
  | .longBreak => "long_break_start"

/-- Sound slot name passed to play_sound at session end (lines 222-227). -/
def end_slot : SessionType → String
  | .work => "work_end"
  | .shortBreak => "short_break_end"
  | .longBreak => "long_break_end"

/-- The terminal-bell escape, the source's '\a' (lines 44-49). -/
def bell : String := "\x07"

/-- The six sound globals SOUND_WORK_START .. SOUND_LONG_BREAK_END, after the
startup probing in main (lines 254-293) has possibly replaced the bell code by
a sound-file path. -/
structure SoundConfig where
  work_start : String
  work_end : String
  short_break_start : String
  short_break_end : String
  long_break_start : String
  long_break_end : String
deriving DecidableEq

/-- Initial values of the sound globals (lines 44-49): all terminal bell. -/
def default_sounds : SoundConfig :=
  ⟨bell, bell, bell, bell, bell, bell⟩

/-- The startup sound probing of main (lines 258-293): a slot is replaced by
its fixed .wav filename exactly when the sounds directory and that file exist;
otherwise the terminal bell is kept. -/
def setup_sounds (dir_found ws we sbs sbe lbs lbe : Bool) : SoundConfig :=
  if dir_found then
    { work_start := if ws then "sounds/work_start.wav" else bell
      work_end := if we then "sounds/work_end.wav" else bell
      short_break_start := if sbs then "sounds/short_break_start.wav" else bell
      short_break_end := if sbe then "sounds/short_break_end.wav" else bell
      long_break_start := if lbs then "sounds/long_break_start.wav" else bell
      long_break_end := if lbe then "sounds/long_break_end.wav" else bell }
  else default_sounds

/-- sound_map.get(sound_type, '\a') of play_sound (lines 64-73). -/
def sound_map (c : SoundConfig) (sound_type : String) : String :=
  if sound_type = "work_start" then c.work_start
  else if sound_type = "work_end" then c.work_end
  else if sound_type = "short_break_start" then c.short_break_start
  else if sound_type = "short_break_end" then c.short_break_end
  else if sound_type = "long_break_start" then c.long_break_start
  else if sound_type = "long_break_end" then c.long_break_end
  else bell

/-- Environment of play_sound: which external players shutil.which finds, and
how an invocation of each behaves.  subprocess.run is called without
check=True (lines 85, 88), so a player process that runs but exits non-zero
raises nothing and its CompletedProcess result is discarded; the exit_zero
fields record that exit status, which the code never consults.  The raises
fields model a Python exception thrown while launching/running the player
(the `except Exception` case, line 92). -/
structure SoundEnv where
  aplay_available : Bool
  play_available : Bool
  aplay_raises : Bool
  play_raises : Bool
  aplay_exit_zero : Bool
  play_exit_zero : Bool
deriving DecidableEq

/-- Observable effects of the audible-cue component. -/
inductive AudioEvent
  | player_invoked (player : String) (file : String)
  | bell_printed
deriving DecidableEq

/-- The try-block of play_sound (lines 82-91): pick aplay, else play, else
print the bell.  Second component: whether a Python exception was raised
inside the block. -/
def play_sound_attempt (env : SoundEnv) (sound : String) : List AudioEvent × Bool :=
  if env.aplay_available then ([.player_invoked "aplay" sound], env.aplay_raises)
  else if env.play_available then ([.player_invoked "play" sound], env.play_raises)
  else ([.bell_printed], false)

/-- play_sound (lines 51-94).  First component: audio events emitted; second:
whether an exception propagates to the caller (the `except Exception` handler
at line 92 prints the bell and swallows, so this is always false). -/
def play_sound (mute_sounds : Bool) (c : SoundConfig) (env : SoundEnv)
    (sound_type : String) : List AudioEvent × Bool :=
  if mute_sounds then ([], false)
  else
    let sound := sound_map c sound_type
    if sound = bell then ([.bell_printed], false)
    else
      let r := play_sound_attempt env sound
      if r.2 then (r.1 ++ [.bell_printed], false) else (r.1, false)

/-- Platform dispatch of send_notification (lines 140-152). -/
inductive Platform
  | darwin
  | linuxOS
  | windows
  | other
deriving DecidableEq

/-- A desktop-notification dispatch action. -/
inductive NotifyAction
  | osascript (title message : String)
  | notify_send (title message : String)
  | powershell_msgbox (title message : String)
deriving DecidableEq

/-- send_notification (lines 140-152): per-platform dispatch; no branch
consults the mute flag, and unknown platforms dispatch nothing. -/
def send_notification (p : Platform) (title message : String) : List NotifyAction :=
  match p with
  | .darwin => [.osascript title message]
  | .linuxOS => [.notify_send title message]
  | .windows => [.powershell_msgbox title message]
  | .other => []

/-- Python's f"{n:02d}": the decimal digits of n, left-padded with zeros to a
minimum width of 2. -/
def pyFormat02 (n : Nat) : String :=
  let s := Nat.repr n
  if s.length < 2 then String.mk (List.replicate (2 - s.length) '0') ++ s else s

/-- format_time (lines 154-157): divmod(seconds, 60) rendered as mm:ss. -/
def format_time (seconds : Nat) : String :=
  let md := (seconds / 60, seconds % 60)
  pyFormat02 md.1 ++ ":" ++ pyFormat02 md.2

/-- Python's int() applied to an exact real value: truncation toward zero. -/
def pyInt (q : ℚ) : ℤ := if 0 ≤ q then q.floor else -((-q).floor)

/-- Bar width, line 171. -/
def bar_width : ℤ := 30

/-- The filled-cell count of display_timer, line 172:
int(width * (total_seconds - remaining_seconds) / total_seconds), with the
float division modelled exactly.  (For total = 0 the Python code raises
ZeroDivisionError; the run loop never calls it with total = 0.) -/
def display_progress (remaining total : ℤ) : ℤ :=
  pyInt (((bar_width * (total - remaining) : ℤ) : ℚ) / ((total : ℤ) : ℚ))

/-- The percentage label of display_timer, line 178:
int((total_seconds - remaining_seconds) / total_seconds * 100), with the
float arithmetic modelled exactly. -/
def display_percent (remaining total : ℤ) : ℤ :=
  pyInt ((((total - remaining : ℤ) : ℚ) / ((total : ℤ) : ℚ)) * 100)

/-- What one frame of display_timer (lines 159-179) shows. -/
structure RenderedFrame where
  sess : String
  time_text : String
  filled : ℤ
  percent : ℤ
deriving DecidableEq

/-- display_timer (lines 159-179), as the data it renders.  remaining is
nonnegative at every call site. -/
def display_timer (st : SessionType) (remaining total : ℤ) : RenderedFrame :=
  { sess := session_label st
    time_text := format_time remaining.toNat
    filled := display_progress remaining total
    percent := display_percent remaining total }

/-- Line 206: remaining_seconds = int(end_time - current_time). -/
def remaining_seconds_calc (end_time now : ℚ) : ℤ := pyInt (end_time - now)

/-- Whether the pending SIGINT (delivered at clock instant it) has fired by
clock instant t. -/
def intr_fires (intr : Option ℤ) (t : ℤ) : Bool :=
  match intr with
  | some it => decide (it ≤ t)
  | none => false

/-- The while-loop of run_timer (lines 204-213) under the exact 1-second tick
model.  d is duration_seconds; t is the clock at the loop check (the session
began at clock 0 and time.sleep(1) at line 202 ran first, so the initial call
has t = 1); fuel is the number of loop checks it still takes to reach the end
time, exactly (d - t).toNat at every call.  Returns the remaining_seconds
values pushed to display_timer, in order, and whether the loop was aborted by
the interrupt handler (which clears the screen, prints "Timer stopped." and
exits).  Each frame value is int(end_time - now) = d - t, an exact integer. -/
def timer_ticks (intr : Option ℤ) (d : ℤ) : Nat → ℤ → List ℤ × Bool
  | 0, t => if intr_fires intr t then ([], true) else ([], false)
  | fuel+1, t =>
    if intr_fires intr t then ([], true)
    else if t < d then
      let r := timer_ticks intr d fuel (t+1)
      ((d - t) :: r.1, r.2)
    else ([], false)

/-- The full tick loop of run_timer for duration_seconds = d, entered at
clock 1. -/
def run_timer_ticks (intr : Option ℤ) (d : ℤ) : List ℤ × Bool :=
  timer_ticks intr d (d - 1).toNat 1

/-- Events observable in a run of the program. -/
inductive MEvent
  | notified (title message : String)
  | started_printed (st : SessionType)
  | audio (a : AudioEvent)
  | frame (remaining : ℤ)
  | completed_printed (st : SessionType)
  | stopped_printed
  | exited (code : ℤ)
  | crashed
deriving DecidableEq

/-- run_timer (lines 181-235) as an event trace.  Order as in the source:
session-started notification (190), "Starting ..." print (191), start sound
(195-200), the tick loop (203-213), then on natural expiry the "... session
completed!" print (218), completion notification (219) and end sound
(222-227); on interrupt the handler prints "Timer stopped." and exits with
status 0 (231-233 / 240-242).  Second component: whether the session was
cancelled. -/
def run_timer (mute : Bool) (snd : SoundConfig) (env : SoundEnv)
    (intr : Option ℤ) (duration_minutes : ℤ) (st : SessionType) :
    List MEvent × Bool :=
  let duration_seconds := duration_minutes * 60
  let r := run_timer_ticks intr duration_seconds
  let startEvs : List MEvent :=
    [.notified "Pomodoro Timer" (session_label st ++ " session started"),
     .started_printed st] ++
    (play_sound mute snd env (start_slot st)).1.map .audio
  if r.2 then
    (startEvs ++ r.1.map .frame ++ [.stopped_printed, .exited 0], true)
  else
    (startEvs ++ r.1.map .frame ++
      ([.completed_printed st,
        .notified "Pomodoro Timer" (session_label st ++ " session completed!")] ++
       (play_sound mute snd env (end_slot st)).1.map .audio), false)

/-- The parsed command-line arguments (lines 102-132). -/
structure Args where
  work : ℤ
  short_break : ℤ
  long_break : ℤ
  pomodoros : ℤ
  debug : Bool
  mute : Bool
deriving DecidableEq

/-- parse_arguments (lines 102-132): argparse with type=int performs no range
validation whatsoever, so every integer combination is accepted as-is; the
boolean flags set the DEBUG and MUTE_SOUNDS globals. -/
def parse_arguments (work short_break long_break pomodoros : ℤ)
    (debug mute : Bool) : Args :=
  ⟨work, short_break, long_break, pomodoros, debug, mute⟩

/-- Python's % on integers: floor-style modulus (Int.fmod), raising
ZeroDivisionError (none) when the divisor is zero. -/
def pyMod (a b : ℤ) : Option ℤ :=
  if b = 0 then none else some (Int.fmod a b)

/-- Restrict a (session index, interrupt instant) interrupt specification to
one session: the signal arrives during session number i. -/
def intr_for (intr : Option (Nat × ℤ)) (i : Nat) : Option ℤ :=
  match intr with
  | some si => if si.1 = i then some si.2 else none
  | none => none

/-- The while-loop of main (lines 299-313) as an event trace.  count is
pomodoro_count (incremented at line 301 before the Work session runs); idx
numbers the sessions started so far, for interrupt targeting; fuel bounds the
number of loop iterations modelled (the real loop runs until interrupted).
After a Work session, count % args.pomodoros == 0 picks the long break
(306-309), else the short break (310-313); % with a zero divisor raises an
uncaught ZeroDivisionError (re-raised at line 322), crashing the process.  A
cancelled session has already exited the process, so nothing follows it. -/
def main_loop (a : Args) (snd : SoundConfig) (env : SoundEnv)
    (intr : Option (Nat × ℤ)) : Nat → ℤ → Nat → List MEvent
  | 0, _, _ => []
  | fuel+1, count, idx =>
    let count2 := count + 1
    let w := run_timer a.mute snd env (intr_for intr idx) a.work .work
    if w.2 then w.1
    else
      w.1 ++
        match pyMod count2 a.pomodoros with
        | none => [.crashed]
        | some r =>
          if r = 0 then
            let b := run_timer a.mute snd env (intr_for intr (idx+1))
              a.long_break .longBreak
            if b.2 then b.1 else b.1 ++ main_loop a snd env intr fuel count2 (idx+2)
          else
            let b := run_timer a.mute snd env (intr_for intr (idx+1))
              a.short_break .shortBreak
            if b.2 then b.1 else b.1 ++ main_loop a snd env intr fuel count2 (idx+2)

/-- Kinds of the sessions started, in order (from the "Starting ..." prints). -/
def started_kinds (evs : List MEvent) : List SessionType :=
  evs.filterMap fun e =>
    match e with
    | .started_printed st => some st
    | _ => none

/-- Whether an event is the completion print of a Work session. -/
def is_completed_work : MEvent → Bool
  | .completed_printed .work => true
  | _ => false

/-- Number of Work sessions that ran to completion in a trace. -/
def completed_work (evs : List MEvent) : Nat :=
  evs.countP is_completed_work

/-- The desktop-notification invocations of a trace (title, message). -/
def notify_calls (evs : List MEvent) : List (String × String) :=
  evs.filterMap fun e =>
    match e with
    | .notified t m => some (t, m)
    | _ => none

/-- The audible-cue events of a trace. -/
def audio_events (evs : List MEvent) : List AudioEvent :=
  evs.filterMap fun e =>
    match e with
    | .audio a => some a
    | _ => none

/-- The countdown frames of a trace. -/
def frame_values (evs : List MEvent) : List ℤ :=
  evs.filterMap fun e =>
    match e with
    | .frame r => some r
    | _ => none

/-- Whether an event is a process exit (of any status) or a crash. -/
def is_process_end : MEvent → Bool
  | .exited _ => true
  | .crashed => true
  | _ => false

/-- A sound environment with no external player. -/
def env0 : SoundEnv := ⟨false, false, false, false, true, true⟩

/-- The configuration `--work 0 --short-break 1 --long-break 1`, accepted by
parse_arguments although the work duration is non-positive. -/
def c1_args : Args := parse_arguments 0 1 1 4 false false

/-- A small valid configuration (all durations one minute, four pomodoros). -/
def a4 : Args := ⟨1, 1, 1, 4, false, false⟩

/-- The configuration `--long-break 1 --pomodoros 0`. -/
def p0_args : Args := ⟨1, 1, 1, 0, false, false⟩

/-- A sound environment where aplay is available, raises nothing, and the
playback nevertheless fails (non-zero exit status). -/
def c9_env : SoundEnv := ⟨true, false, false, false, false, true⟩

/-- A sound configuration with an asset for the work_start slot. -/
def c9_snd : SoundConfig :=
  { default_sounds with work_start := "sounds/work_start.wav" }

/-- The duration in minutes of the r-th session (0-based) started by main's
loop from pomodoro_count = count: even positions are Work sessions; the odd
position 2*j+1 is the break taken after the Work session that raised
pomodoro_count to count + j + 1, which is the Long break exactly when that
count is divisible by args.pomodoros (lines 299-313). -/
def session_minutes_from (a : Args) (count : ℤ) (r : Nat) : ℤ :=
  if r % 2 = 0 then a.work
  else if Int.fmod (count + ((r / 2 : Nat) : ℤ) + 1) a.pomodoros = 0 then
    a.long_break
  else a.short_break

/-! ### Generic list facts used by the trace projections -/

theorem filterMap_map_nil {α β γ : Type} (f : α → β) (g : β → Option γ)
    (h : ∀ a, g (f a) = none) (l : List α) : (l.map f).filterMap g = [] := by
  induction l with
  | nil => rfl
  | cons a tl ih => simp [h, ih]

theorem countP_map_zero {α β : Type} (f : α → β) (p : β → Bool)
    (h : ∀ a, p (f a) = false) (l : List α) : (l.map f).countP p = 0 := by
  induction l with
  | nil => rfl
  | cons a tl ih => simp [List.countP_cons, h, ih]

/-! ### Trace projection lemmas -/

theorem started_kinds_append (l1 l2 : List MEvent) :
    started_kinds (l1 ++ l2) = started_kinds l1 ++ started_kinds l2 :=
  List.filterMap_append l1 l2 _

theorem notify_calls_append (l1 l2 : List MEvent) :
    notify_calls (l1 ++ l2) = notify_calls l1 ++ notify_calls l2 :=
  List.filterMap_append l1 l2 _

theorem audio_events_append (l1 l2 : List MEvent) :
    audio_events (l1 ++ l2) = audio_events l1 ++ audio_events l2 :=
  List.filterMap_append l1 l2 _

theorem frame_values_append (l1 l2 : List MEvent) :
    frame_values (l1 ++ l2) = frame_values l1 ++ frame_values l2 :=
  List.filterMap_append l1 l2 _

theorem completed_work_append (l1 l2 : List MEvent) :
    completed_work (l1 ++ l2) = completed_work l1 + completed_work l2 :=
  List.countP_append _ l1 l2

theorem started_kinds_map_audio (l : List AudioEvent) :
    started_kinds (l.map .audio) = [] :=
  filterMap_map_nil _ _ (fun _ => rfl) l

theorem started_kinds_map_frame (l : List ℤ) :
    started_kinds (l.map .frame) = [] :=
  filterMap_map_nil _ _ (fun _ => rfl) l

theorem notify_calls_map_audio (l : List AudioEvent) :
    notify_calls (l.map .audio) = [] :=
  filterMap_map_nil _ _ (fun _ => rfl) l

theorem notify_calls_map_frame (l : List ℤ) :
    notify_calls (l.map .frame) = [] :=
  filterMap_map_nil _ _ (fun _ => rfl) l

theorem frame_values_map_audio (l : List AudioEvent) :
    frame_values (l.map .audio) = [] :=
  filterMap_map_nil _ _ (fun _ => rfl) l

theorem frame_values_map_frame (l : List ℤ) :
    frame_values (l.map .frame) = l := by
  induction l with
  | nil => rfl
  | cons a tl ih => simp [frame_values] at ih ⊢; exact ih

theorem audio_events_map_audio (l : List AudioEvent) :
    audio_events (l.map .audio) = l := by
  induction l with
  | nil => rfl
  | cons a tl ih => simp [audio_events] at ih ⊢; exact ih

theorem audio_events_map_frame (l : List ℤ) :
    audio_events (l.map .frame) = [] :=
  filterMap_map_nil _ _ (fun _ => rfl) l

theorem completed_work_map_audio (l : List AudioEvent) :
    completed_work (l.map .audio) = 0 :=
  countP_map_zero _ _ (fun _ => rfl) l

theorem completed_work_map_frame (l : List ℤ) :
    completed_work (l.map .frame) = 0 :=
  countP_map_zero _ _ (fun _ => rfl) l

/-! ### The tick loop -/

theorem timer_ticks_none_eq (d : ℤ) :
    ∀ (fuel : Nat) (t : ℤ), timer_ticks none d fuel t =
      ((List.range (min fuel (d - t).toNat)).map fun i : Nat => d - t - (i : ℤ), false) := by
  intro fuel
  induction fuel with
  | zero => intro t; simp [timer_ticks, intr_fires]
  | succ f ih =>
    intro t
    simp only [timer_ticks, intr_fires, Bool.false_eq_true, if_false]
    by_cases h : t < d
    · rw [if_pos h, ih (t + 1)]
      have h1 : (d - t).toNat = (d - t - 1).toNat + 1 := by omega
      have h2 : (d - (t + 1)).toNat = (d - t - 1).toNat := by omega
      have h3 : (fun i : Nat => d - (t + 1) - (i : ℤ)) =
          (fun i : Nat => d - t - (i : ℤ)) ∘ Nat.succ := by
        funext i
        simp only [Function.comp_apply, Nat.succ_eq_add_one]
        push_cast
        ring
      rw [h2, h1, Nat.succ_min_succ, List.range_succ_eq_map, h3]
      simp [List.map_map]
    · rw [if_neg h]
      have h0 : (d - t).toNat = 0 := by omega
      simp [h0]

theorem run_timer_ticks_none_eq (d : ℤ) :
    run_timer_ticks none d =
      ((List.range (d - 1).toNat).map fun i : Nat => d - 1 - (i : ℤ), false) := by
  unfold run_timer_ticks
  rw [timer_ticks_none_eq]
  simp

theorem timer_ticks_fires (it d : ℤ) (hd : it ≤ d) :
    ∀ (fuel : Nat) (t : ℤ), it ≤ t + fuel → (timer_ticks (some it) d fuel t).2 = true := by
  intro fuel
  induction fuel with
  | zero =>
    intro t ht
    have h : it ≤ t := by push_cast at ht; omega
    simp [timer_ticks, intr_fires, h]
  | succ f ih =>
    intro t ht
    by_cases h : it ≤ t
    · simp [timer_ticks, intr_fires, h]
    · have htd : t < d := by omega
      have h2 : it ≤ (t + 1) + f := by push_cast at ht ⊢; omega
      simp only [timer_ticks, intr_fires, decide_eq_true_eq, if_neg h, if_pos htd]
      exact ih (t + 1) h2

theorem run_timer_ticks_cancelled (it d : ℤ) (h1 : 1 ≤ d) (hit : it ≤ d) :
    (run_timer_ticks (some it) d).2 = true := by
  unfold run_timer_ticks
  apply timer_ticks_fires it d hit
  omega

/-! ### run_timer trace facts -/

theorem run_timer_snd_none (mute : Bool) (snd : SoundConfig) (env : SoundEnv)
    (m : ℤ) (st : SessionType) :
    (run_timer mute snd env none m st).2 = false := by
  simp [run_timer, run_timer_ticks_none_eq]

theorem run_timer_started_kinds (mute : Bool) (snd : SoundConfig) (env : SoundEnv)
    (intr : Option ℤ) (m : ℤ) (st : SessionType) :
    started_kinds (run_timer mute snd env intr m st).1 = [st] := by
  by_cases h : (run_timer_ticks intr (m * 60)).2 <;>
    simp [run_timer, h, started_kinds_append, started_kinds_map_audio,
      started_kinds_map_frame, started_kinds]

theorem run_timer_completed_none (mute : Bool) (snd : SoundConfig) (env : SoundEnv)
    (m : ℤ) (st : SessionType) :
    completed_work (run_timer mute snd env none m st).1 =
      if st = .work then 1 else 0 := by
  have hsnd : (run_timer_ticks none (m * 60)).2 = false := by
    rw [run_timer_ticks_none_eq]
  simp only [run_timer, hsnd, Bool.false_eq_true, if_false]
  simp only [completed_work_append, completed_work_map_audio, completed_work_map_frame]
  cases st <;> simp [completed_work, List.countP_cons, is_completed_work]

theorem run_timer_cancelled_trace (mute : Bool) (snd : SoundConfig) (env : SoundEnv)
    (it m : ℤ) (st : SessionType)
    (h : (run_timer_ticks (some it) (m * 60)).2 = true) :
    (run_timer mute snd env (some it) m st).2 = true ∧
    completed_work (run_timer mute snd env (some it) m st).1 = 0 ∧
    [MEvent.stopped_printed, MEvent.exited 0] <:+
      (run_timer mute snd env (some it) m st).1 := by
  refine ⟨by simp [run_timer, h], ?_, ?_⟩
  · simp only [run_timer, h, if_true]
    simp only [completed_work_append, completed_work_map_audio, completed_work_map_frame]
    simp [completed_work, List.countP_cons, is_completed_work]
  · simp only [run_timer, h, if_true]
    rw [List.append_assoc]
    exact (List.suffix_append _ _).trans (List.suffix_append _ _)

/-! ### Truncation versus floor -/

theorem ratFloor_eq_intFloor (q : ℚ) : q.floor = ⌊q⌋ := by
  rw [Rat.floor_def', Rat.floor_def]

theorem pyInt_eq_floor (q : ℚ) (h : 0 ≤ q) : pyInt q = ⌊q⌋ := by
  rw [pyInt, if_pos h, ratFloor_eq_intFloor]

/-! ### Claims about the tick loop (C2, C10) -/

/-- C2, as stated, is false: with durationMinutes = 1 the uninterrupted tick
loop renders 59 frames, not 1*60 + 1 = 61, and the first frame shows
remaining = 59, not totalSeconds = 60. -/
theorem C2_counterexample :
    (run_timer_ticks none (1 * 60)).1.length = 59 ∧
    ¬ (run_timer_ticks none (1 * 60)).1.length = 1 * 60 + 1 ∧
    (run_timer_ticks none (1 * 60)).1.head? = some 59 := by
  refine ⟨by decide, by decide, by decide⟩

/-- C2 amended: for every durationMinutes ≥ 1, an uninterrupted run renders
exactly durationMinutes*60 - 1 frames, with remainingSeconds taking the values
totalSeconds-1, totalSeconds-2, ..., 1 in that order (end_time is fixed before
the initial one-second pause at line 202, and the loop exits once the clock
reaches it, so neither totalSeconds nor 0 is ever rendered). -/
theorem C2_amended (m : ℤ) (hm : 1 ≤ m) :
    (run_timer_ticks none (m * 60)).1 =
      (List.range (m * 60 - 1).toNat).map (fun i : Nat => m * 60 - 1 - (i : ℤ)) ∧
    (run_timer_ticks none (m * 60)).1.length = (m * 60 - 1).toNat ∧
    (run_timer_ticks none (m * 60)).2 = false := by
  rw [run_timer_ticks_none_eq]
  exact ⟨rfl, by simp, rfl⟩

/-- Witness for C2_amended at durationMinutes = 1. -/
theorem C2_amended_witness :
    (1 : ℤ) ≤ 1 ∧
    ((run_timer_ticks none (1 * 60)).1 =
      (List.range ((1 : ℤ) * 60 - 1).toNat).map (fun i : Nat => (1 : ℤ) * 60 - 1 - (i : ℤ)) ∧
     (run_timer_ticks none (1 * 60)).1.length = ((1 : ℤ) * 60 - 1).toNat ∧
     (run_timer_ticks none (1 * 60)).2 = false) :=
  ⟨by decide, C2_amended 1 (by decide)⟩

/-- C10: for durationMinutes ≤ 0, run_timer rejects nothing: it emits the
session-started notification, start print and start sound, renders no
countdown frame (end_time is already in the past at the first loop check),
and immediately emits the completion print, completion notification and end
sound, returning as a normally completed (uncancelled) session. -/
theorem C10_nonpositive_duration (mute : Bool) (snd : SoundConfig) (env : SoundEnv)
    (m : ℤ) (st : SessionType) (hm : m ≤ 0) :
    run_timer mute snd env none m st =
      ([.notified "Pomodoro Timer" (session_label st ++ " session started"),
        .started_printed st] ++
       (play_sound mute snd env (start_slot st)).1.map .audio ++
       ([.completed_printed st,
         .notified "Pomodoro Timer" (session_label st ++ " session completed!")] ++
        (play_sound mute snd env (end_slot st)).1.map .audio), false) ∧
    frame_values (run_timer mute snd env none m st).1 = [] := by
  have hd : (m * 60 - 1).toNat = 0 := by omega
  have ht : run_timer_ticks none (m * 60) = ([], false) := by
    rw [run_timer_ticks_none_eq, hd]
    rfl
  constructor
  · simp [run_timer, ht]
  · simp [run_timer, ht, frame_values_append, frame_values_map_audio, frame_values]

/-- Witness for C10 at durationMinutes = 0 (a Work session with no player). -/
theorem C10_witness :
    (0 : ℤ) ≤ 0 ∧
    (run_timer false default_sounds env0 none 0 .work =
      ([.notified "Pomodoro Timer" (session_label .work ++ " session started"),
        .started_printed .work] ++
       (play_sound false default_sounds env0 (start_slot .work)).1.map .audio ++
       ([.completed_printed .work,
         .notified "Pomodoro Timer" (session_label .work ++ " session completed!")] ++
        (play_sound false default_sounds env0 (end_slot .work)).1.map .audio), false) ∧
     frame_values (run_timer false default_sounds env0 none 0 .work).1 = []) :=
  ⟨by decide, C10_nonpositive_duration false default_sounds env0 0 .work (by decide)⟩

/-! ### The remaining-seconds computation (C4) -/

/-- C4, as stated, is false: line 206 computes int(end_time - now), which
truncates; at end_time = 60 and now = 3/2 (a realistic tick instant half a
second after the first sleep) the code pushes 58, while
ceil(end_time - now) clamped to [0, 60] is 59. -/
theorem C4_counterexample :
    remaining_seconds_calc 60 (3/2 : ℚ) = 58 ∧
    min (60 : ℤ) (max 0 ⌈(60 : ℚ) - 3/2⌉) = 59 ∧
    remaining_seconds_calc 60 (3/2 : ℚ) ≠ min (60 : ℤ) (max 0 ⌈(60 : ℚ) - 3/2⌉) := by
  have h1 : remaining_seconds_calc 60 (3/2 : ℚ) = 58 := by
    rw [remaining_seconds_calc, pyInt_eq_floor _ (by norm_num)]
    norm_num
  have h2 : ⌈(60 : ℚ) - 3/2⌉ = 59 := by
    rw [Int.ceil_eq_iff]
    norm_num
  refine ⟨h1, by rw [h2]; decide, ?_⟩
  rw [h1, h2]
  decide

/-- C4 amended: on every in-session clock reading (start ≤ now < end), the
value pushed is int(end_time - now) = floor(end_time - now); it lies in
[0, totalSeconds], and it is a pure function of end_time - now, i.e. it is
recomputed from the clock each tick and never carried over or decremented
(shift invariance). -/
theorem C4_amended (start : ℚ) (total : ℤ) (now : ℚ)
    (h1 : start ≤ now) (h2 : now < start + total) :
    remaining_seconds_calc (start + total) now = ⌊start + (total : ℚ) - now⌋ ∧
    0 ≤ remaining_seconds_calc (start + total) now ∧
    remaining_seconds_calc (start + total) now ≤ total ∧
    ∀ d : ℚ, remaining_seconds_calc (start + (total : ℚ) + d) (now + d) =
      remaining_seconds_calc (start + total) now := by
  have hq : (0 : ℚ) ≤ start + total - now := by linarith
  have heq : remaining_seconds_calc (start + total) now = ⌊start + (total : ℚ) - now⌋ := by
    rw [remaining_seconds_calc, pyInt_eq_floor _ hq]
  refine ⟨heq, ?_, ?_, ?_⟩
  · rw [heq]
    exact Int.floor_nonneg.mpr hq
  · rw [heq]
    calc ⌊start + (total : ℚ) - now⌋ ≤ ⌊(total : ℚ)⌋ :=
          Int.floor_le_floor (by linarith)
      _ = total := Int.floor_intCast total
  · intro d
    rw [remaining_seconds_calc, remaining_seconds_calc]
    have : start + (total : ℚ) + d - (now + d) = start + total - now := by ring
    rw [this]

/-- Witness for C4_amended at start = 0, total = 60, now = 3/2. -/
theorem C4_amended_witness :
    (0 : ℚ) ≤ 3/2 ∧ (3/2 : ℚ) < 0 + (60 : ℤ) ∧
    (remaining_seconds_calc (0 + (60 : ℤ)) (3/2) = ⌊(0 : ℚ) + ((60 : ℤ) : ℚ) - 3/2⌋ ∧
     0 ≤ remaining_seconds_calc (0 + (60 : ℤ)) (3/2 : ℚ) ∧
     remaining_seconds_calc (0 + (60 : ℤ)) (3/2 : ℚ) ≤ (60 : ℤ) ∧
     ∀ d : ℚ, remaining_seconds_calc (0 + ((60 : ℤ) : ℚ) + d) (3/2 + d) =
       remaining_seconds_calc (0 + (60 : ℤ)) (3/2 : ℚ)) :=
  ⟨by norm_num, by norm_num, C4_amended 0 60 (3/2) (by norm_num) (by norm_num)⟩

/-! ### The progress bar (C5) -/

/-- C5: for 0 ≤ elapsed ≤ total with total > 0 (and remaining =
total - elapsed), the filled-cell count of display_timer is
floor(30 * elapsed / total), between 0 and 30, and the percentage label is
floor(elapsed / total * 100), between 0 and 100. -/
theorem C5_progress_bar (elapsed total : ℤ)
    (h0 : 0 ≤ elapsed) (h1 : elapsed ≤ total) (h2 : 0 < total) :
    display_progress (total - elapsed) total =
      ⌊((30 * elapsed : ℤ) : ℚ) / ((total : ℤ) : ℚ)⌋ ∧
    0 ≤ display_progress (total - elapsed) total ∧
    display_progress (total - elapsed) total ≤ 30 ∧
    display_percent (total - elapsed) total =
      ⌊((elapsed : ℤ) : ℚ) / ((total : ℤ) : ℚ) * 100⌋ ∧
    0 ≤ display_percent (total - elapsed) total ∧
    display_percent (total - elapsed) total ≤ 100 := by
  have htQ : (0 : ℚ) < (total : ℚ) := by exact_mod_cast h2
  have heQ : (0 : ℚ) ≤ (elapsed : ℚ) := by exact_mod_cast h0
  have heT : (elapsed : ℚ) ≤ (total : ℚ) := by exact_mod_cast h1
  have harg : bar_width * (total - (total - elapsed)) = 30 * elapsed := by
    rw [bar_width]; ring
  have harg2 : total - (total - elapsed) = elapsed := by ring
  have hq1 : (0 : ℚ) ≤ ((30 * elapsed : ℤ) : ℚ) / ((total : ℤ) : ℚ) := by
    apply div_nonneg _ (le_of_lt htQ)
    push_cast
    linarith
  have hq2 : (0 : ℚ) ≤ ((elapsed : ℤ) : ℚ) / ((total : ℤ) : ℚ) * 100 := by
    apply mul_nonneg (div_nonneg heQ (le_of_lt htQ)) (by norm_num)
  have hprog : display_progress (total - elapsed) total =
      ⌊((30 * elapsed : ℤ) : ℚ) / ((total : ℤ) : ℚ)⌋ := by
    rw [display_progress, harg, pyInt_eq_floor _ hq1]
  have hpct : display_percent (total - elapsed) total =
      ⌊((elapsed : ℤ) : ℚ) / ((total : ℤ) : ℚ) * 100⌋ := by
    rw [display_percent, harg2, pyInt_eq_floor _ hq2]
  refine ⟨hprog, ?_, ?_, hpct, ?_, ?_⟩
  · rw [hprog]
    exact Int.floor_nonneg.mpr hq1
  · rw [hprog]
    calc ⌊((30 * elapsed : ℤ) : ℚ) / ((total : ℤ) : ℚ)⌋ ≤ ⌊(30 : ℚ)⌋ := by
          apply Int.floor_le_floor
          rw [div_le_iff₀ htQ]
          push_cast
          linarith
      _ = 30 := by norm_num
  · rw [hpct]
    exact Int.floor_nonneg.mpr hq2
  · rw [hpct]
    calc ⌊((elapsed : ℤ) : ℚ) / ((total : ℤ) : ℚ) * 100⌋ ≤ ⌊(100 : ℚ)⌋ := by
          apply Int.floor_le_floor
          rw [div_mul_eq_mul_div, div_le_iff₀ htQ]
          linarith
      _ = 100 := by norm_num

/-- Witness for C5 at elapsed = 1, total = 3 (filled = 10, percent = 33). -/
theorem C5_progress_bar_witness :
    (0 : ℤ) ≤ 1 ∧ (1 : ℤ) ≤ 3 ∧ (0 : ℤ) < 3 ∧
    (display_progress ((3 : ℤ) - 1) 3 = ⌊((30 * 1 : ℤ) : ℚ) / (((3 : ℤ) : ℤ) : ℚ)⌋ ∧
     0 ≤ display_progress ((3 : ℤ) - 1) 3 ∧
     display_progress ((3 : ℤ) - 1) 3 ≤ 30 ∧
     display_percent ((3 : ℤ) - 1) 3 = ⌊(((1 : ℤ) : ℤ) : ℚ) / (((3 : ℤ) : ℤ) : ℚ) * 100⌋ ∧
     0 ≤ display_percent ((3 : ℤ) - 1) 3 ∧
     display_percent ((3 : ℤ) - 1) 3 ≤ 100) :=
  ⟨by decide, by decide, by decide, C5_progress_bar 1 3 (by decide) (by decide) (by decide)⟩

/-! ### format_time (C6) -/

theorem toDigitsCore_length_ge (b : ℕ) :
    ∀ (fuel n : ℕ) (ds : List Char), ds.length ≤ (Nat.toDigitsCore b fuel n ds).length := by
  intro fuel
  induction fuel with
  | zero => intro n ds; simp [Nat.toDigitsCore]
  | succ f ih =>
    intro n ds
    simp only [Nat.toDigitsCore]
    split
    · simp
    · calc ds.length ≤ (Nat.digitChar (n % b) :: ds).length := by simp
        _ ≤ _ := ih _ _

theorem toDigitsCore_length_succ (b fuel n : ℕ) (ds : List Char) (hf : 1 ≤ fuel) :
    ds.length + 1 ≤ (Nat.toDigitsCore b fuel n ds).length := by
  cases fuel with
  | zero => omega
  | succ f =>
    simp only [Nat.toDigitsCore]
    split
    · simp
    · calc ds.length + 1 = (Nat.digitChar (n % b) :: ds).length := by simp
        _ ≤ _ := toDigitsCore_length_ge b f (n / b) _

theorem repr_length_ge_two (n : ℕ) (h : 10 ≤ n) : 2 ≤ (Nat.repr n).length := by
  show 2 ≤ (List.asString (Nat.toDigits 10 n)).length
  have hlen : (List.asString (Nat.toDigits 10 n)).length = (Nat.toDigits 10 n).length := rfl
  rw [hlen]
  show 2 ≤ (Nat.toDigitsCore 10 (n + 1) n []).length
  have hn : ¬ n / 10 = 0 := by omega
  simp only [Nat.toDigitsCore, hn, if_false]
  have : ([Nat.digitChar (n % 10)].length + 1 : ℕ) ≤
      (Nat.toDigitsCore 10 n (n / 10) [Nat.digitChar (n % 10)]).length :=
    toDigitsCore_length_succ 10 n (n / 10) _ (by omega)
  simpa using this

theorem repr_length_one (n : ℕ) (h : n < 10) : (Nat.repr n).length = 1 := by
  have hall : ∀ m, m < 10 → (Nat.repr m).length = 1 := by decide
  exact hall n h

theorem pyFormat02_eq (n : ℕ) :
    pyFormat02 n = if n < 10 then "0" ++ Nat.repr n else Nat.repr n := by
  by_cases h : n < 10
  · rw [if_pos h, pyFormat02]
    have h1 := repr_length_one n h
    simp only [h1]
    rfl
  · rw [if_neg h, pyFormat02]
    have h2 := repr_length_ge_two n (by omega)
    have h3 : ¬ (Nat.repr n).length < 2 := by omega
    simp only [h3, if_false]

/-- C6: format_time maps a nonnegative second count s to the zero-padded
string mm:ss with mm = s div 60 and ss = s mod 60; in particular
format_time 125 = "02:05", format_time 0 = "00:00" and
format_time 3599 = "59:59". -/
theorem C6_format_time :
    format_time 125 = "02:05" ∧ format_time 0 = "00:00" ∧
    format_time 3599 = "59:59" ∧
    ∀ s : Nat, format_time s =
      (if s / 60 < 10 then "0" ++ Nat.repr (s / 60) else Nat.repr (s / 60)) ++ ":" ++
      (if s % 60 < 10 then "0" ++ Nat.repr (s % 60) else Nat.repr (s % 60)) := by
  refine ⟨by decide, by decide, by decide, ?_⟩
  intro s
  rw [format_time, pyFormat02_eq, pyFormat02_eq]

/-! ### The mute flag (C8) -/

/-- C8: with the mute flag set, play_sound emits nothing at all (no external
player invocation, not even the bell), so a muted session trace contains no
audio event; the desktop-notification calls of a session trace are exactly
the same as when unmuted. -/
theorem C8_mute (snd : SoundConfig) (env : SoundEnv) (t : String)
    (intr : Option ℤ) (m : ℤ) (st : SessionType) :
    (play_sound true snd env t).1 = [] ∧
    audio_events (run_timer true snd env intr m st).1 = [] ∧
    notify_calls (run_timer true snd env intr m st).1 =
      notify_calls (run_timer false snd env intr m st).1 := by
  have hmuted1 : (play_sound true snd env (start_slot st)).1 = [] := rfl
  have hmuted2 : (play_sound true snd env (end_slot st)).1 = [] := rfl
  refine ⟨rfl, ?_, ?_⟩
  · by_cases h : (run_timer_ticks intr (m * 60)).2
    · simp only [run_timer, h, if_true, audio_events_append, hmuted1,
        audio_events_map_frame, List.map_nil]
      simp [audio_events]
    · simp only [run_timer, h, Bool.false_eq_true, if_false, audio_events_append,
        hmuted1, hmuted2, audio_events_map_frame, List.map_nil]
      simp [audio_events]
  · by_cases h : (run_timer_ticks intr (m * 60)).2
    · simp only [run_timer, h, if_true, notify_calls_append, hmuted1,
        notify_calls_map_frame, notify_calls_map_audio, List.map_nil]
      simp [notify_calls]
    · simp only [run_timer, h, Bool.false_eq_true, if_false, notify_calls_append,
        hmuted1, hmuted2, notify_calls_map_frame, notify_calls_map_audio, List.map_nil]
      simp [notify_calls]

/-! ### Audible-cue resolution (C9) -/

/-- C9, as stated, is false on one point: a "playback error" in which the
external player runs but fails (non-zero exit status) does not fall back to
the terminal alert tone, because subprocess.run is invoked without check=True
and its result is discarded.  Concretely, with aplay available and not
raising, a failed playback (exit status non-zero) of the configured
work_start asset emits only the player invocation and no bell. -/
theorem C9_counterexample :
    c9_env.aplay_exit_zero = false ∧
    (play_sound false c9_snd c9_env "work_start").1 =
      [.player_invoked "aplay" "sounds/work_start.wav"] ∧
    AudioEvent.bell_printed ∉ (play_sound false c9_snd c9_env "work_start").1 := by
  refine ⟨rfl, by decide, by decide⟩

/-- C9 amended: resolution order as specified — a configured asset is played
via aplay if available, else play, else the bell; with no asset configured
for the slot the bell is printed; a Python exception raised during playback
is swallowed with a bell fallback, and no exception ever propagates to the
caller.  However, a player that runs but exits non-zero is not detected: the
exit status is never consulted (the trace is invariant under it) and no bell
is emitted on such a playback failure. -/
theorem C9_amended (snd : SoundConfig) (env : SoundEnv) (t : String) :
    (play_sound false snd env t).2 = false ∧
    (sound_map snd t = bell → (play_sound false snd env t).1 = [.bell_printed]) ∧
    (sound_map snd t ≠ bell → env.aplay_available = false →
      env.play_available = false →
      (play_sound false snd env t).1 = [.bell_printed]) ∧
    (sound_map snd t ≠ bell → env.aplay_available = true →
      (play_sound false snd env t).1 =
        .player_invoked "aplay" (sound_map snd t) ::
          (if env.aplay_raises then [.bell_printed] else [])) ∧
    (sound_map snd t ≠ bell → env.aplay_available = false →
      env.play_available = true →
      (play_sound false snd env t).1 =
        .player_invoked "play" (sound_map snd t) ::
          (if env.play_raises then [.bell_printed] else [])) ∧
    (∀ e1 e2 e3 e4 : Bool,
      play_sound false snd { env with aplay_exit_zero := e1, play_exit_zero := e2 } t =
      play_sound false snd { env with aplay_exit_zero := e3, play_exit_zero := e4 } t) := by
  refine ⟨?_, ?_, ?_, ?_, ?_, ?_⟩
  · simp only [play_sound, Bool.false_eq_true, if_false]
    split_ifs <;> rfl
  · intro hb
    simp [play_sound, hb]
  · intro hb ha hp
    simp [play_sound, play_sound_attempt, hb, ha, hp]
  · intro hb ha
    cases hr : env.aplay_raises <;>
      simp [play_sound, play_sound_attempt, hb, ha, hr]
  · intro hb ha hp
    cases hr : env.play_raises <;>
      simp [play_sound, play_sound_attempt, hb, ha, hp, hr]
  · intro e1 e2 e3 e4
    simp [play_sound, play_sound_attempt]

/-- Witness for C9_amended: aplay plays the configured work_start asset. -/
theorem C9_amended_witness :
    sound_map c9_snd "work_start" ≠ bell ∧
    c9_env.aplay_available = true ∧
    (play_sound false c9_snd c9_env "work_start").1 =
      .player_invoked "aplay" (sound_map c9_snd "work_start") ::
        (if c9_env.aplay_raises then [.bell_printed] else []) :=
  ⟨by decide, rfl, (C9_amended c9_snd c9_env "work_start").2.2.2.1 (by decide) rfl⟩

/-! ### Startup validation (C1) -/

/-- C1, as stated, is false: the configuration --work 0 (a non-positive
session duration) is accepted unchanged by parse_arguments, and main then
starts sessions (a Work session followed by a Short Break session) without
the process ever exiting or crashing during that first iteration.  No
rejection happens before a session starts. -/
theorem C1_counterexample :
    c1_args = parse_arguments 0 1 1 4 false false ∧
    c1_args.work ≤ 0 ∧
    (started_kinds (main_loop c1_args default_sounds env0 none 1 0 0)).length = 2 ∧
    (main_loop c1_args default_sounds env0 none 1 0 0).countP is_process_end = 0 := by
  refine ⟨rfl, by decide, by decide, by decide⟩

/-- C1 amended: the program performs no configuration validation.
parse_arguments accepts every integer combination unchanged, and the first
Work session always starts.  A non-positive duration yields a session that
completes immediately with no countdown frame; pomodorosPerCycle = 0 makes
the first loop iteration crash with an uncaught ZeroDivisionError — a
non-zero process exit that happens only after the first Work session has run
to completion, never before a session starts. -/
theorem C1_amended :
    (∀ (w s l p : ℤ) (d m : Bool),
      parse_arguments w s l p d m = ⟨w, s, l, p, d, m⟩) ∧
    (∀ (a : Args) (snd : SoundConfig) (env : SoundEnv) (fuel : Nat)
      (count : ℤ) (idx : Nat), a.pomodoros = 0 →
      main_loop a snd env none (fuel + 1) count idx =
        (run_timer a.mute snd env none a.work .work).1 ++ [.crashed] ∧
      completed_work (main_loop a snd env none (fuel + 1) count idx) = 1) := by
  constructor
  · intro w s l p d m
    rfl
  · intro a snd env fuel count idx hp
    have hw := run_timer_snd_none a.mute snd env a.work .work
    have heq : main_loop a snd env none (fuel + 1) count idx =
        (run_timer a.mute snd env none a.work .work).1 ++ [.crashed] := by
      simp only [main_loop, intr_for, hw, Bool.false_eq_true, if_false, pyMod, hp,
        if_true]
    refine ⟨heq, ?_⟩
    rw [heq, completed_work_append, run_timer_completed_none]
    simp [completed_work, List.countP_cons, is_completed_work]

/-- Witness for C1_amended at the configuration --pomodoros 0. -/
theorem C1_amended_witness :
    p0_args.pomodoros = 0 ∧
    (main_loop p0_args default_sounds env0 none 1 0 0 =
      (run_timer p0_args.mute default_sounds env0 none p0_args.work .work).1 ++
        [.crashed] ∧
     completed_work (main_loop p0_args default_sounds env0 none 1 0 0) = 1) :=
  ⟨rfl, C1_amended.2 p0_args default_sounds env0 0 0 0 rfl⟩

/-! ### The cycle sequence (C3) -/

theorem main_loop_started_succ (a : Args) (snd : SoundConfig) (env : SoundEnv)
    (hP : a.pomodoros ≠ 0) (fuel : Nat) (count : ℤ) (idx : Nat) :
    started_kinds (main_loop a snd env none (fuel + 1) count idx) =
      .work :: (if Int.fmod (count + 1) a.pomodoros = 0 then SessionType.longBreak
                else SessionType.shortBreak) ::
        started_kinds (main_loop a snd env none fuel (count + 1) (idx + 2)) := by
  have hw := run_timer_snd_none a.mute snd env a.work .work
  have hbL := run_timer_snd_none a.mute snd env a.long_break .longBreak
  have hbS := run_timer_snd_none a.mute snd env a.short_break .shortBreak
  simp only [main_loop, intr_for, hw, Bool.false_eq_true, if_false, pyMod, hP,
    if_true]
  by_cases hr : Int.fmod (count + 1) a.pomodoros = 0
  · simp only [hr, if_true, hbL, Bool.false_eq_true, if_false]
    rw [started_kinds_append, started_kinds_append, run_timer_started_kinds,
      run_timer_started_kinds]
    rfl
  · simp only [hr, if_false, hbS, Bool.false_eq_true]
    rw [started_kinds_append, started_kinds_append, run_timer_started_kinds,
      run_timer_started_kinds]
    rfl

theorem main_loop_get_pair (a : Args) (snd : SoundConfig) (env : SoundEnv)
    (hP : a.pomodoros ≠ 0) :
    ∀ (j n : Nat) (count : ℤ) (idx : Nat), j < n →
      (started_kinds (main_loop a snd env none n count idx)).get? (2 * j) =
        some .work ∧
      (started_kinds (main_loop a snd env none n count idx)).get? (2 * j + 1) =
        some (if Int.fmod (count + j + 1) a.pomodoros = 0 then SessionType.longBreak
              else SessionType.shortBreak) := by
  intro j
  induction j with
  | zero =>
    intro n count idx hn
    obtain ⟨m, rfl⟩ : ∃ m, n = m + 1 := ⟨n - 1, by omega⟩
    rw [main_loop_started_succ a snd env hP]
    simp
  | succ i ih =>
    intro n count idx hn
    obtain ⟨m, rfl⟩ : ∃ m, n = m + 1 := ⟨n - 1, by omega⟩
    rw [main_loop_started_succ a snd env hP]
    have h2 : 2 * (i + 1) = 2 * i + 1 + 1 := by ring
    have h3 : 2 * (i + 1) + 1 = 2 * i + 1 + 1 + 1 := by ring
    rw [h3, h2]
    simp only [List.get?_cons_succ]
    have := ih m (count + 1) (idx + 2) (by omega)
    have hc : count + 1 + (i : ℤ) + 1 = count + ((i : ℤ) + 1) + 1 := by ring
    rw [hc] at this
    simpa using this

/-- C3: starting from a fresh state, the session sequence is Work, Break,
Work, Break, ..., beginning with Work, where the break after the (j+1)-st
completed Work session is a LongBreak exactly when (j+1) mod pomodorosPerCycle
is 0 and a ShortBreak otherwise. -/
theorem C3_cycle_sequence (a : Args) (snd : SoundConfig) (env : SoundEnv)
    (hP : 0 < a.pomodoros) :
    ∀ (j n : Nat), j < n →
      (started_kinds (main_loop a snd env none n 0 0)).get? (2 * j) =
        some .work ∧
      (started_kinds (main_loop a snd env none n 0 0)).get? (2 * j + 1) =
        some (if ((j : ℤ) + 1) % a.pomodoros = 0 then SessionType.longBreak
              else SessionType.shortBreak) := by
  intro j n hn
  have h := main_loop_get_pair a snd env (by omega) j n 0 0 hn
  rw [Int.fmod_eq_emod _ (le_of_lt hP)] at h
  simpa using h

/-- Witness for C3 with pomodoros = 4 over five loop iterations: the fourth
break (after the fourth Work session) is the Long Break. -/
theorem C3_cycle_sequence_witness :
    (0 : ℤ) < a4.pomodoros ∧
    (3 : Nat) < 5 ∧
    ((started_kinds (main_loop a4 default_sounds env0 none 5 0 0)).get? 6 =
      some .work ∧
     (started_kinds (main_loop a4 default_sounds env0 none 5 0 0)).get? 7 =
      some .longBreak) := by
  refine ⟨by decide, by decide, ?_⟩
  have h := C3_cycle_sequence a4 default_sounds env0 (by decide) 3 5 (by decide)
  simpa using h

/-! ### Cancellation (C7) -/

theorem session_minutes_from_shift (a : Args) (count : ℤ) (r : Nat) :
    session_minutes_from a count (r + 2) = session_minutes_from a (count + 1) r := by
  simp only [session_minutes_from]
  have hpar : (r + 2) % 2 = r % 2 := by omega
  rw [hpar]
  by_cases h : r % 2 = 0
  · rw [if_pos h, if_pos h]
  · have hdiv : ((r + 2) / 2 : Nat) = r / 2 + 1 := by omega
    rw [if_neg h, if_neg h, hdiv]
    have harg : count + ((r / 2 + 1 : Nat) : ℤ) + 1 =
        count + 1 + ((r / 2 : Nat) : ℤ) + 1 := by
      push_cast
      ring
    rw [harg]

theorem main_loop_interrupt (a : Args) (snd : SoundConfig) (env : SoundEnv)
    (it : ℤ) (hP : a.pomodoros ≠ 0) (h0 : 0 ≤ it) :
    ∀ (fuel s : Nat) (count : ℤ) (idx : Nat), s < 2 * fuel →
      it < session_minutes_from a count s * 60 →
      (started_kinds (main_loop a snd env (some (idx + s, it)) fuel count idx)).length
          = s + 1 ∧
      completed_work (main_loop a snd env (some (idx + s, it)) fuel count idx)
          = (s + 1) / 2 ∧
      [MEvent.stopped_printed, MEvent.exited 0] <:+
        main_loop a snd env (some (idx + s, it)) fuel count idx := by
  have hcwW : completed_work (run_timer a.mute snd env none a.work .work).1 = 1 := by
    rw [run_timer_completed_none]
    simp
  have hcwL :
      completed_work (run_timer a.mute snd env none a.long_break .longBreak).1 = 0 := by
    rw [run_timer_completed_none]
    simp
  have hcwS :
      completed_work (run_timer a.mute snd env none a.short_break .shortBreak).1 = 0 := by
    rw [run_timer_completed_none]
    simp
  intro fuel
  induction fuel with
  | zero => intro s count idx h; omega
  | succ f ih =>
    intro s count idx hs2 hit
    match s with
    | 0 =>
      have hsm : session_minutes_from a count 0 = a.work := by
        simp [session_minutes_from]
      rw [hsm] at hit
      have hfire : (run_timer_ticks (some it) (a.work * 60)).2 = true :=
        run_timer_ticks_cancelled it (a.work * 60) (by omega) (by omega)
      obtain ⟨hc2, hc0, hcs⟩ :=
        run_timer_cancelled_trace a.mute snd env it a.work .work hfire
      have hintr : intr_for (some (idx + 0, it)) idx = some it := by
        simp [intr_for]
      simp only [main_loop, hintr, hc2, if_true]
      refine ⟨?_, ?_, hcs⟩
      · rw [run_timer_started_kinds]
        rfl
      · rw [hc0]
    | 1 =>
      have hsm : session_minutes_from a count 1 =
          if Int.fmod (count + 1) a.pomodoros = 0 then a.long_break
          else a.short_break := by
        simp [session_minutes_from]
      rw [hsm] at hit
      have hintr0 : intr_for (some (idx + 1, it)) idx = none := by
        simp [intr_for]
      have hintr1 : intr_for (some (idx + 1, it)) (idx + 1) = some it := by
        simp [intr_for]
      have hwn := run_timer_snd_none a.mute snd env a.work .work
      simp only [main_loop, hintr0, hintr1, hwn, Bool.false_eq_true, if_false,
        pyMod, hP, if_true]
      by_cases hr : Int.fmod (count + 1) a.pomodoros = 0
      · rw [if_pos hr] at hit
        have hfire : (run_timer_ticks (some it) (a.long_break * 60)).2 = true :=
          run_timer_ticks_cancelled it (a.long_break * 60) (by omega) (by omega)
        obtain ⟨hc2, hc0, hcs⟩ :=
          run_timer_cancelled_trace a.mute snd env it a.long_break .longBreak hfire
        simp only [hr, if_true, hc2]
        refine ⟨?_, ?_, ?_⟩
        · rw [started_kinds_append, run_timer_started_kinds,
            run_timer_started_kinds]
          rfl
        · rw [completed_work_append, hcwW, hc0]
        · exact hcs.trans (List.suffix_append _ _)
      · rw [if_neg hr] at hit
        have hfire : (run_timer_ticks (some it) (a.short_break * 60)).2 = true :=
          run_timer_ticks_cancelled it (a.short_break * 60) (by omega) (by omega)
        obtain ⟨hc2, hc0, hcs⟩ :=
          run_timer_cancelled_trace a.mute snd env it a.short_break .shortBreak hfire
        simp only [hr, if_false, hc2, if_true]
        refine ⟨?_, ?_, ?_⟩
        · rw [started_kinds_append, run_timer_started_kinds,
            run_timer_started_kinds]
          rfl
        · rw [completed_work_append, hcwW, hc0]
        · exact hcs.trans (List.suffix_append _ _)
    | s' + 2 =>
      rw [session_minutes_from_shift] at hit
      have hwn := run_timer_snd_none a.mute snd env a.work .work
      have hshift : idx + (s' + 2) = (idx + 2) + s' := by omega
      have hrec := ih s' (count + 1) (idx + 2) (by omega) hit
      have hintr0b : intr_for (some ((idx + 2) + s', it)) idx = none := by
        simp only [intr_for]
        rw [if_neg (by omega)]
      have hintr1b : intr_for (some ((idx + 2) + s', it)) (idx + 1) = none := by
        simp only [intr_for]
        rw [if_neg (by omega)]
      rw [hshift]
      simp only [main_loop]
      rw [hintr0b, hintr1b]
      simp only [hwn, Bool.false_eq_true, if_false, pyMod, hP, if_true]
      by_cases hr : Int.fmod (count + 1) a.pomodoros = 0
      · have hbn := run_timer_snd_none a.mute snd env a.long_break .longBreak
        simp only [hr, if_true, hbn, Bool.false_eq_true, if_false]
        refine ⟨?_, ?_, ?_⟩
        · rw [started_kinds_append, started_kinds_append,
            run_timer_started_kinds, run_timer_started_kinds]
          simp only [List.length_append, hrec.1, List.length_cons,
            List.length_nil]
          omega
        · rw [completed_work_append, completed_work_append, hcwW, hcwL, hrec.2.1]
          omega
        · exact (hrec.2.2.trans (List.suffix_append _ _)).trans
            (List.suffix_append _ _)
      · have hbn := run_timer_snd_none a.mute snd env a.short_break .shortBreak
        simp only [hr, if_false, hbn, Bool.false_eq_true]
        refine ⟨?_, ?_, ?_⟩
        · rw [started_kinds_append, started_kinds_append,
            run_timer_started_kinds, run_timer_started_kinds]
          simp only [List.length_append, hrec.1, List.length_cons,
            List.length_nil]
          omega
        · rw [completed_work_append, completed_work_append, hcwW, hcwS, hrec.2.1]
          omega
        · exact (hrec.2.2.trans (List.suffix_append _ _)).trans
            (List.suffix_append _ _)

/-- C7: if SIGINT is delivered at any instant with remainingSeconds still
positive during session number s (0-based; Work sessions are the even
indices) — that is, at 0 ≤ it < 60 * (the duration of the interrupted
session itself, with no constraint from the durations of the other sessions — then:
exactly s + 1 sessions are ever started (none after the interrupted one),
the number of Work sessions counted as completed is (s+1)/2 — for an
interrupted Work session (even s) that is s/2, excluding the interrupted
one — and the trace ends with the stopped message followed by a process
exit with status 0. -/
theorem C7_cancellation (a : Args) (snd : SoundConfig) (env : SoundEnv)
    (s : Nat) (it : ℤ) (fuel : Nat)
    (hP : a.pomodoros ≠ 0) (h0 : 0 ≤ it)
    (hit : it < session_minutes_from a 0 s * 60)
    (hfuel : s < 2 * fuel) :
    (started_kinds (main_loop a snd env (some (s, it)) fuel 0 0)).length = s + 1 ∧
    completed_work (main_loop a snd env (some (s, it)) fuel 0 0) = (s + 1) / 2 ∧
    [MEvent.stopped_printed, MEvent.exited 0] <:+
      main_loop a snd env (some (s, it)) fuel 0 0 := by
  have h := main_loop_interrupt a snd env it hP h0 fuel s 0 0 hfuel hit
  simpa using h

/-- Witness for C7: interrupt in the middle of the first Work session of the
small configuration a4 (all durations one minute); only the Work duration
bounds the interrupt instant. -/
theorem C7_cancellation_witness :
    a4.pomodoros ≠ 0 ∧ (0 : ℤ) ≤ 30 ∧
    (30 : ℤ) < session_minutes_from a4 0 0 * 60 ∧
    (0 : Nat) < 2 * 1 ∧
    ((started_kinds (main_loop a4 default_sounds env0 (some (0, 30)) 1 0 0)).length
        = 0 + 1 ∧
     completed_work (main_loop a4 default_sounds env0 (some (0, 30)) 1 0 0)
        = (0 + 1) / 2 ∧
     [MEvent.stopped_printed, MEvent.exited 0] <:+
       main_loop a4 default_sounds env0 (some (0, 30)) 1 0 0) :=
  ⟨by decide, by decide, by decide, by decide,
   C7_cancellation a4 default_sounds env0 0 30 1 (by decide) (by decide)
     (by decide) (by decide)⟩

end Pomodoro
